import Mathlib

/-!
Shallow embedding of the yosai core data structures that the specification
talks about:

* `SimpleIdentifierCollection` (src/yosai/core/subject/identifier.py)
* `MapContext` (src/yosai/core/context/context.py)
* `DefaultSessionSettings` (src/yosai/core/session/session_settings.py)

Python values that can appear as identifiers, source names, context keys and
context values are modelled by `PyVal`, which also carries Python's truthiness
(`if value:` tests).  Python `dict`s are modelled as insertion-ordered
association lists; `dict.__setitem__` overwrites in place or appends at the
end, `dict.update` folds `__setitem__` over the other dict's items in order.
Exceptions are modelled with `Except`.
-/

/-- A Python value: `None`, an int, a string, or a bool.  Enough to express
identifiers, source names and context values, together with their
truthiness. -/
inductive PyVal where
  | none
  | int (n : Int)
  | str (s : String)
  | bool (b : Bool)
  deriving DecidableEq, Repr

/-- Python truthiness of a `PyVal` (`bool(value)`). -/
def PyVal.truthy : PyVal → Bool
  | .none => false
  | .int n => if n = 0 then false else true
  | .str s => if s = "" then false else true
  | .bool b => b

/-- Exceptions raised by the modelled code paths. -/
inductive PyErr where
  | invalidArgument
  | stopIteration
  | attributeError
  deriving DecidableEq, Repr

/-- `d[k]` lookup returning `Option` (`dict.get` without its default). -/
def dictGet {α β : Type} [DecidableEq α] (d : List (α × β)) (k : α) : Option β :=
  match d with
  | [] => Option.none
  | (k0, v0) :: tl => if k0 = k then some v0 else dictGet tl k

/-- `d[k] = v`: overwrite the binding in place if the key is present,
otherwise append the new binding at the end (Python dict insertion order). -/
def dictSet {α β : Type} [DecidableEq α] (d : List (α × β)) (k : α) (v : β) :
    List (α × β) :=
  match d with
  | [] => [(k, v)]
  | (k0, v0) :: tl => if k0 = k then (k, v) :: tl else (k0, v0) :: dictSet tl k v

/-- `d.update(e)`: set every binding of `e`, in `e`'s order, into `d`. -/
def dictUpdate {α β : Type} [DecidableEq α] (d e : List (α × β)) :
    List (α × β) :=
  e.foldl (fun acc kv => dictSet acc kv.1 kv.2) d

/-- `list(d.keys())` in order. -/
def dictKeys {α β : Type} (d : List (α × β)) : List α :=
  d.map Prod.fst

/-- A `dict` state as Python guarantees it: keys occur at most once. -/
@[reducible] def DictWF {α β : Type} (d : List (α × β)) : Prop :=
  (dictKeys d).Nodup

section DictLemmas

variable {α β : Type} [DecidableEq α]

theorem dictKeys_nil : dictKeys ([] : List (α × β)) = [] := rfl

theorem dictKeys_cons (k0 : α) (v0 : β) (tl : List (α × β)) :
    dictKeys ((k0, v0) :: tl) = k0 :: dictKeys tl := rfl

theorem dictKeys_append (d e : List (α × β)) :
    dictKeys (d ++ e) = dictKeys d ++ dictKeys e := by
  simp [dictKeys]

theorem dictGet_set_self (d : List (α × β)) (k : α) (v : β) :
    dictGet (dictSet d k v) k = some v := by
  induction d with
  | nil => simp [dictSet, dictGet]
  | cons hd tl ih =>
      obtain ⟨k0, v0⟩ := hd
      by_cases h : k0 = k
      · simp [dictSet, dictGet, h]
      · simp [dictSet, dictGet, h, ih]

theorem dictGet_set_ne (d : List (α × β)) (k k' : α) (v : β) (h : k' ≠ k) :
    dictGet (dictSet d k v) k' = dictGet d k' := by
  induction d with
  | nil => simp [dictSet, dictGet, Ne.symm h]
  | cons hd tl ih =>
      obtain ⟨k0, v0⟩ := hd
      by_cases h0 : k0 = k
      · subst h0
        simp [dictSet, dictGet, Ne.symm h]
      · simp [dictSet, dictGet, h0, ih]

theorem dictKeys_set_mem (d : List (α × β)) (k : α) (v : β)
    (h : k ∈ dictKeys d) : dictKeys (dictSet d k v) = dictKeys d := by
  induction d with
  | nil => simp [dictKeys_nil] at h
  | cons hd tl ih =>
      obtain ⟨k0, v0⟩ := hd
      by_cases h0 : k0 = k
      · simp [dictSet, h0, dictKeys_cons]
      · rw [dictKeys_cons] at h
        have hmem : k ∈ dictKeys tl := by
          rcases List.mem_cons.mp h with h1 | h1
          · exact absurd h1.symm h0
          · exact h1
        simp [dictSet, h0, dictKeys_cons, ih hmem]

theorem dictKeys_set_not_mem (d : List (α × β)) (k : α) (v : β)
    (h : k ∉ dictKeys d) : dictKeys (dictSet d k v) = dictKeys d ++ [k] := by
  induction d with
  | nil => simp [dictSet, dictKeys_cons, dictKeys_nil]
  | cons hd tl ih =>
      obtain ⟨k0, v0⟩ := hd
      rw [dictKeys_cons] at h
      have h0 : k0 ≠ k := fun h0 => h (List.mem_cons.mpr (Or.inl h0.symm))
      have htl : k ∉ dictKeys tl := fun hm => h (List.mem_cons.mpr (Or.inr hm))
      simp [dictSet, h0, dictKeys_cons, ih htl]

theorem mem_dictKeys_set (d : List (α × β)) (k k' : α) (v : β) :
    k' ∈ dictKeys (dictSet d k v) ↔ k' ∈ dictKeys d ∨ k' = k := by
  by_cases h : k ∈ dictKeys d
  · rw [dictKeys_set_mem d k v h]
    constructor
    · exact fun hm => Or.inl hm
    · rintro (hm | rfl)
      · exact hm
      · exact h
  · rw [dictKeys_set_not_mem d k v h]
    simp

theorem nodup_dictKeys_set (d : List (α × β)) (k : α) (v : β)
    (h : (dictKeys d).Nodup) : (dictKeys (dictSet d k v)).Nodup := by
  by_cases hm : k ∈ dictKeys d
  · rwa [dictKeys_set_mem d k v hm]
  · rw [dictKeys_set_not_mem d k v hm]
    simp [List.nodup_append, h, hm]

theorem dictSet_not_mem_append (d : List (α × β)) (k : α) (v : β)
    (h : k ∉ dictKeys d) : dictSet d k v = d ++ [(k, v)] := by
  induction d with
  | nil => simp [dictSet]
  | cons hd tl ih =>
      obtain ⟨k0, v0⟩ := hd
      rw [dictKeys_cons] at h
      have h0 : k0 ≠ k := fun h0 => h (List.mem_cons.mpr (Or.inl h0.symm))
      have htl : k ∉ dictKeys tl := fun hm => h (List.mem_cons.mpr (Or.inr hm))
      simp [dictSet, h0, ih htl]

theorem dictUpdate_cons (d : List (α × β)) (k0 : α) (v0 : β) (tl : List (α × β)) :
    dictUpdate d ((k0, v0) :: tl) = dictUpdate (dictSet d k0 v0) tl := rfl

theorem dictGet_update_not_mem (d e : List (α × β)) (k : α)
    (h : k ∉ dictKeys e) : dictGet (dictUpdate d e) k = dictGet d k := by
  induction e generalizing d with
  | nil => simp [dictUpdate]
  | cons hd tl ih =>
      obtain ⟨k0, v0⟩ := hd
      rw [dictKeys_cons] at h
      have h0 : k ≠ k0 := fun h0 => h (List.mem_cons.mpr (Or.inl h0))
      have htl : k ∉ dictKeys tl := fun hm => h (List.mem_cons.mpr (Or.inr hm))
      rw [dictUpdate_cons, ih (dictSet d k0 v0) htl, dictGet_set_ne d k0 k v0 h0]

theorem dictGet_update_mem (d e : List (α × β)) (k : α)
    (he : (dictKeys e).Nodup) (h : k ∈ dictKeys e) :
    dictGet (dictUpdate d e) k = dictGet e k := by
  induction e generalizing d with
  | nil => simp [dictKeys_nil] at h
  | cons hd tl ih =>
      obtain ⟨k0, v0⟩ := hd
      rw [dictKeys_cons] at he h
      have hk0 : k0 ∉ dictKeys tl := (List.nodup_cons.mp he).1
      have he' : (dictKeys tl).Nodup := (List.nodup_cons.mp he).2
      rw [dictUpdate_cons]
      by_cases hk : k = k0
      · subst hk
        rw [dictGet_update_not_mem (dictSet d k v0) tl k hk0]
        simp [dictGet, dictGet_set_self]
      · have hmem : k ∈ dictKeys tl := by
          rcases List.mem_cons.mp h with h1 | h1
          · exact absurd h1 hk
          · exact h1
        rw [ih (dictSet d k0 v0) he' hmem]
        simp [dictGet, Ne.symm hk]

theorem mem_dictKeys_update (d e : List (α × β)) (k : α) :
    k ∈ dictKeys (dictUpdate d e) ↔ k ∈ dictKeys d ∨ k ∈ dictKeys e := by
  induction e generalizing d with
  | nil => simp [dictUpdate, dictKeys_nil]
  | cons hd tl ih =>
      obtain ⟨k0, v0⟩ := hd
      rw [dictUpdate_cons, ih (dictSet d k0 v0), mem_dictKeys_set d k0 k v0,
        dictKeys_cons]
      constructor
      · rintro ((h | h) | h)
        · exact Or.inl h
        · exact Or.inr (List.mem_cons.mpr (Or.inl h))
        · exact Or.inr (List.mem_cons.mpr (Or.inr h))
      · rintro (h | h)
        · exact Or.inl (Or.inl h)
        · rcases List.mem_cons.mp h with h1 | h1
          · exact Or.inl (Or.inr h1)
          · exact Or.inr h1

theorem nodup_dictKeys_update (d e : List (α × β))
    (hd : (dictKeys d).Nodup) : (dictKeys (dictUpdate d e)).Nodup := by
  induction e generalizing d with
  | nil => simpa [dictUpdate]
  | cons hd0 tl ih =>
      obtain ⟨k0, v0⟩ := hd0
      rw [dictUpdate_cons]
      exact ih (dictSet d k0 v0) (nodup_dictKeys_set d k0 v0 hd)

theorem dictUpdate_disjoint (d e : List (α × β))
    (he : (dictKeys e).Nodup) (hd : ∀ k ∈ dictKeys e, k ∉ dictKeys d) :
    dictUpdate d e = d ++ e := by
  induction e generalizing d with
  | nil => simp [dictUpdate]
  | cons hd0 tl ih =>
      obtain ⟨k0, v0⟩ := hd0
      rw [dictKeys_cons] at he
      have hk0d : k0 ∉ dictKeys d := hd k0 (by rw [dictKeys_cons]; exact List.mem_cons_self k0 _)
      have hk0tl : k0 ∉ dictKeys tl := (List.nodup_cons.mp he).1
      have he' : (dictKeys tl).Nodup := (List.nodup_cons.mp he).2
      rw [dictUpdate_cons, dictSet_not_mem_append d k0 v0 hk0d]
      rw [ih (d ++ [(k0, v0)]) he' ?_]
      · simp
      · intro k hk
        have hkd : k ∉ dictKeys d :=
          hd k (by rw [dictKeys_cons]; exact List.mem_cons.mpr (Or.inr hk))
        have hkk0 : k ≠ k0 := fun h => hk0tl (h ▸ hk)
        rw [dictKeys_append, dictKeys_cons, dictKeys_nil]
        simp [hkd, hkk0]

end DictLemmas

/-- State of a `SimpleIdentifierCollection`: the `source_identifiers` dict
(`source name → identifier`, insertion-ordered) and the `_primary_identifier`
cache, `None` until the lazy resolution first assigns it. -/
structure SimpleIdentifierCollection where
  source_identifiers : List (PyVal × PyVal)
  _primary_identifier : PyVal
  deriving DecidableEq, Repr

namespace SimpleIdentifierCollection

/-- `add(source_name, identifier)`: `self.source_identifiers[source_name] = identifier`. -/
def add (c : SimpleIdentifierCollection) (source_name identifier : PyVal) :
    SimpleIdentifierCollection :=
  { c with source_identifiers := dictSet c.source_identifiers source_name identifier }

/-- The duck-typed argument of `add_collection`: either an object carrying a
`source_identifiers` dict (a collection) or any other object, on which the
attribute access raises `AttributeError`. -/
inductive CollArg where
  | coll (c : SimpleIdentifierCollection)
  | other (v : PyVal)

/-- `add_collection(identifier_collection)`: read the argument's
`source_identifiers` and `dict.update` ours with it; an argument without that
attribute makes the attribute access raise `AttributeError`, which the method
catches and converts into `InvalidArgumentException` before touching `self`.
Returns the post-call state of `self` together with the exception raised, if
any (the attribute access happens before the update, so on the error path
`self` is returned untouched). -/
def add_collection (c : SimpleIdentifierCollection) (arg : CollArg) :
    SimpleIdentifierCollection × Option PyErr :=
  match arg with
  | .coll b =>
      ({ c with source_identifiers :=
           dictUpdate c.source_identifiers b.source_identifiers },
       Option.none)
  | .other _ => (c, some .invalidArgument)

/-- The `primary_identifier` property.  Guarded by Python truthiness of the
cache (`if not self._primary_identifier:`): when the cache is falsy it takes
`next(iter(self.source_identifiers.values()))` — the first value in insertion
order — stores it in the cache and returns it; on an empty dict `next` raises
`StopIteration`, which the surrounding `except (AttributeError, TypeError)`
does not catch.  A truthy cache is returned as is.  Returns the value paired
with the post-read state. -/
def primary_identifier (c : SimpleIdentifierCollection) :
    Except PyErr (PyVal × SimpleIdentifierCollection) :=
  if c._primary_identifier.truthy then .ok (c._primary_identifier, c)
  else
    match c.source_identifiers with
    | [] => .error .stopIteration
    | (_, v) :: _ => .ok (v, { c with _primary_identifier := v })

/-- `from_source(source_name)`: `self.source_identifiers.get(source_name)`,
`None` when absent. -/
def from_source (c : SimpleIdentifierCollection) (source_name : PyVal) : PyVal :=
  (dictGet c.source_identifiers source_name).getD PyVal.none

/-- The `source_names` property: tuple of the dict's keys, in order. -/
def source_names (c : SimpleIdentifierCollection) : List PyVal :=
  dictKeys c.source_identifiers

/-- The `is_empty` property: `not self.source_identifiers.keys()`. -/
def is_empty (c : SimpleIdentifierCollection) : Bool :=
  (dictKeys c.source_identifiers).isEmpty

/-- `clear()`: `self.source_identifiers = {}` — the cache is not touched. -/
def clear (c : SimpleIdentifierCollection) : SimpleIdentifierCollection :=
  { c with source_identifiers := [] }

/-- The constructor `__init__(source_name=None, identifier=None,
identifier_collection=None)`: start from an empty dict and a `None` cache; if
`identifier_collection` is truthy (any collection object is), merge it in;
`elif source_name and identifier` (Python truthiness of both), add the single
pair; otherwise leave the collection empty. -/
def init (source_name identifier : PyVal)
    (identifier_collection : Option SimpleIdentifierCollection) :
    SimpleIdentifierCollection :=
  let self : SimpleIdentifierCollection := ⟨[], PyVal.none⟩
  match identifier_collection with
  | some b => (add_collection self (.coll b)).1
  | Option.none =>
      if source_name.truthy && identifier.truthy then
        add self source_name identifier
      else
        self

end SimpleIdentifierCollection

/-- State of a `MapContext`: the `context` dict (insertion-ordered). -/
structure MapContext where
  context : List (PyVal × PyVal)
  deriving DecidableEq, Repr

namespace MapContext

/-- The duck-typed argument of `put_all`: either an object carrying a
`context` dict (a carrier) or any other object, on which the attribute access
raises `AttributeError`. -/
inductive CtxArg where
  | ctx (m : MapContext)
  | other (v : PyVal)

/-- `put_all(contextobj)`: `self.context.update(contextobj.context)`; an
argument without a `context` attribute raises `AttributeError`, caught and
re-raised as `InvalidArgumentException` before any mutation of `self`.
Returns the post-call state of `self` with the exception raised, if any. -/
def put_all (m : MapContext) (arg : CtxArg) : MapContext × Option PyErr :=
  match arg with
  | .ctx b => ({ m with context := dictUpdate m.context b.context }, Option.none)
  | .other _ => (m, some .invalidArgument)

/-- `put(attr, value)`: `self.context[attr] = value`. -/
def put (m : MapContext) (attr value : PyVal) : MapContext :=
  { m with context := dictSet m.context attr value }

/-- `none_safe_put(attr, value)`: `if value: self.context[attr] = value` —
a falsy value leaves the dict untouched. -/
def none_safe_put (m : MapContext) (attr value : PyVal) : MapContext :=
  if value.truthy then put m attr value else m

/-- `get(attr)`: `self.context.get(attr)`, `None` when absent. -/
def get (m : MapContext) (attr : PyVal) : PyVal :=
  (dictGet m.context attr).getD PyVal.none

/-- `attr in self` (`__contains__`): key-based membership. -/
def mem (m : MapContext) (attr : PyVal) : Bool :=
  decide (attr ∈ dictKeys m.context)

/-- The `is_empty` property: `len(self.context) == 0`. -/
def is_empty (m : MapContext) : Bool :=
  m.context.length == 0

end MapContext

/-- The session-timeout section of the host configuration
(`SESSION_CONFIG['session_timeout']`): each key optionally present. -/
structure TimeoutConfig where
  absolute_timeout : Option Nat
  idle_timeout : Option Nat
  deriving DecidableEq, Repr

/-- The session-validation section of the host configuration
(`SESSION_CONFIG['session_validation']`). -/
structure ValidationConfig where
  scheduler_enabled : Option Bool
  time_interval : Option Nat
  deriving DecidableEq, Repr

/-- The host `SESSION_CONFIG` dict: each section optionally present
(`session_config.get(..., None)`). -/
structure SessionConfig where
  session_timeout : Option TimeoutConfig
  session_validation : Option ValidationConfig
  deriving DecidableEq, Repr

/-- The fields `DefaultSessionSettings.__init__` assigns.  `datetime.timedelta`
values are modelled by their total number of seconds. -/
structure DefaultSessionSettings where
  absolute_timeout : Nat
  idle_timeout : Nat
  validation_scheduler_enable : Bool
  validation_time_interval : Nat
  deriving DecidableEq, Repr

/-- `DefaultSessionSettings.__init__`: reads the two sections with
`get(..., None)`, then reads each leaf key with its hard-coded default
(`absolute_timeout` 1800, `idle_timeout` 450, `scheduler_enabled` True,
`time_interval` 3600).  A missing section is `None`, so the first `.get` on it
raises `AttributeError`. -/
def mkDefaultSessionSettings (cfg : SessionConfig) :
    Except PyErr DefaultSessionSettings :=
  match cfg.session_timeout with
  | Option.none => .error .attributeError
  | some t =>
      match cfg.session_validation with
      | Option.none => .error .attributeError
      | some v =>
          .ok { absolute_timeout := t.absolute_timeout.getD 1800
                idle_timeout := t.idle_timeout.getD 450
                validation_scheduler_enable := v.scheduler_enabled.getD true
                validation_time_interval := v.time_interval.getD 3600 }

/-!
Helper layer: sequences of mutations applied to a `SimpleIdentifierCollection`
after its primary identifier has been resolved, used to state stability of
`primary_identifier` under later `add` / `add_collection` calls.
-/

/-- One mutation: a call to `add` or an `add_collection` with a genuine
collection argument. -/
inductive SicOp where
  | addOne (source_name identifier : PyVal)
  | addColl (b : SimpleIdentifierCollection)

/-- Apply one mutation. -/
def applySicOp (c : SimpleIdentifierCollection) : SicOp → SimpleIdentifierCollection
  | .addOne s i => c.add s i
  | .addColl b => (c.add_collection (.coll b)).1

/-- Apply a sequence of mutations, left to right. -/
def applySicOps (c : SimpleIdentifierCollection) (ops : List SicOp) :
    SimpleIdentifierCollection :=
  ops.foldl applySicOp c

theorem applySicOp_cache (c : SimpleIdentifierCollection) (op : SicOp) :
    (applySicOp c op)._primary_identifier = c._primary_identifier := by
  cases op <;>
    simp [applySicOp, SimpleIdentifierCollection.add,
      SimpleIdentifierCollection.add_collection]

theorem applySicOps_cache (c : SimpleIdentifierCollection) (ops : List SicOp) :
    (applySicOps c ops)._primary_identifier = c._primary_identifier := by
  induction ops generalizing c with
  | nil => rfl
  | cons op tl ih =>
      show (applySicOps (applySicOp c op) tl)._primary_identifier = _
      rw [ih (applySicOp c op), applySicOp_cache]

theorem primary_identifier_of_truthy (c : SimpleIdentifierCollection)
    (h : c._primary_identifier.truthy = true) :
    c.primary_identifier = Except.ok (c._primary_identifier, c) := by
  simp [SimpleIdentifierCollection.primary_identifier, h]

/-!
Claim theorems.
-/

/-- C1: the claim says `DefaultSessionSettings` defaults `idle_timeout` to 15
minutes.  The code's own comment on the default says `def:15min`, but the
hard-coded default is 450 seconds = 7.5 minutes, not 900.  Evaluating the
constructor on a configuration that omits every leaf key shows the divergence:
`absolute_timeout` (1800 s = 30 min), `scheduler_enabled` (true) and
`time_interval` (3600 s = 1 h) match the claim, `idle_timeout` does not. -/
theorem C1_idle_timeout_default_divergence :
    mkDefaultSessionSettings
        ⟨some ⟨Option.none, Option.none⟩, some ⟨Option.none, Option.none⟩⟩
      = Except.ok ⟨1800, 450, true, 3600⟩ ∧
    (450 : Nat) ≠ 15 * 60 ∧ (1800 : Nat) = 30 * 60 ∧ (3600 : Nat) = 60 * 60 := by
  refine ⟨rfl, by decide, rfl, rfl⟩

/-- C3: adding twice under the same source name overwrites: after
`add(s, i1); add(s, i2)` the collection maps `s` to `i2` and `s` occurs
exactly once in `source_names`. -/
theorem C3_add_overwrites (c : SimpleIdentifierCollection) (s i1 i2 : PyVal)
    (hwf : DictWF c.source_identifiers) :
    ((c.add s i1).add s i2).from_source s = i2 ∧
    (((c.add s i1).add s i2).source_names).count s = 1 := by
  constructor
  · simp [SimpleIdentifierCollection.from_source, SimpleIdentifierCollection.add,
      dictGet_set_self]
  · have h1 : s ∈ dictKeys (dictSet c.source_identifiers s i1) :=
      (mem_dictKeys_set c.source_identifiers s s i1).mpr (Or.inr rfl)
    have hnd : (dictKeys (dictSet c.source_identifiers s i1)).Nodup :=
      nodup_dictKeys_set c.source_identifiers s i1 hwf
    show (dictKeys (dictSet (dictSet c.source_identifiers s i1) s i2)).count s = 1
    rw [dictKeys_set_mem (dictSet c.source_identifiers s i1) s i2 h1]
    exact List.count_eq_one_of_mem hnd h1

/-- C3 witness: `add(1, 2); add(1, 3)` on an empty collection. -/
theorem C3_add_overwrites_witness :
    ((SimpleIdentifierCollection.add
        (SimpleIdentifierCollection.add ⟨[], PyVal.none⟩ (PyVal.int 1) (PyVal.int 2))
        (PyVal.int 1) (PyVal.int 3)).from_source (PyVal.int 1) = PyVal.int 3) ∧
    ((SimpleIdentifierCollection.add
        (SimpleIdentifierCollection.add ⟨[], PyVal.none⟩ (PyVal.int 1) (PyVal.int 2))
        (PyVal.int 1) (PyVal.int 3)).source_names).count (PyVal.int 1) = 1 :=
  C3_add_overwrites ⟨[], PyVal.none⟩ (PyVal.int 1) (PyVal.int 2) (PyVal.int 3)
    List.nodup_nil

/-- C6: `add_collection` on a non-collection argument and `put_all` on a
non-carrier argument both raise `InvalidArgumentException` and return the
target with its entries untouched. -/
theorem C6_invalid_argument_unchanged (a : SimpleIdentifierCollection)
    (m : MapContext) (v w : PyVal) :
    a.add_collection (.other v) = (a, some PyErr.invalidArgument) ∧
    m.put_all (.other w) = (m, some PyErr.invalidArgument) :=
  ⟨rfl, rfl⟩

/-- C8: on an empty collection whose primary identifier was never resolved,
reading `primary_identifier` raises (`next` on the exhausted values iterator
raises `StopIteration`, which `except (AttributeError, TypeError)` does not
catch), rather than reaching the warn-and-return-`None` fallback. -/
theorem C8_empty_primary_identifier_raises (c : SimpleIdentifierCollection)
    (h1 : c.source_identifiers = []) (h2 : c._primary_identifier = PyVal.none) :
    c.primary_identifier = Except.error PyErr.stopIteration := by
  simp [SimpleIdentifierCollection.primary_identifier, h1, h2, PyVal.truthy]

/-- C8 witness: the freshly-constructed empty collection. -/
theorem C8_empty_primary_identifier_raises_witness :
    SimpleIdentifierCollection.primary_identifier ⟨[], PyVal.none⟩
      = Except.error PyErr.stopIteration :=
  C8_empty_primary_identifier_raises ⟨[], PyVal.none⟩ rfl rfl

/-- C10: `none_safe_put` with a falsy value (`None`, `0`, `""`, `False`)
leaves the carrier completely unchanged. -/
theorem C10_none_safe_put_falsy_noop (m : MapContext) (k v : PyVal)
    (h : v.truthy = false) :
    m.none_safe_put k v = m := by
  simp [MapContext.none_safe_put, h]

/-- C10 witness: putting `None` under an existing key of a concrete carrier. -/
theorem C10_none_safe_put_falsy_noop_witness :
    MapContext.none_safe_put ⟨[(PyVal.int 1, PyVal.int 2)]⟩ (PyVal.int 1) PyVal.none
      = ⟨[(PyVal.int 1, PyVal.int 2)]⟩ :=
  C10_none_safe_put_falsy_noop ⟨[(PyVal.int 1, PyVal.int 2)]⟩ (PyVal.int 1)
    PyVal.none rfl

/-- C2 counterexample: the claim's stability clause fails when the lazily
resolved primary identifier is falsy.  Resolution is guarded by
`if not self._primary_identifier:` (Python truthiness, not an `is None`
check), so a cached falsy identifier — here the int `0` contributed by source
`1` — is re-resolved on every read: after a later `add` call the read returns
`5`, not the previously resolved `0`. -/
theorem C2_counterexample_falsy_primary_not_stable :
    (SimpleIdentifierCollection.add ⟨[], PyVal.none⟩ (PyVal.int 1) (PyVal.int 0)
      = ⟨[(PyVal.int 1, PyVal.int 0)], PyVal.none⟩) ∧
    (SimpleIdentifierCollection.primary_identifier
        ⟨[(PyVal.int 1, PyVal.int 0)], PyVal.none⟩
      = Except.ok (PyVal.int 0, ⟨[(PyVal.int 1, PyVal.int 0)], PyVal.int 0⟩)) ∧
    (SimpleIdentifierCollection.add ⟨[(PyVal.int 1, PyVal.int 0)], PyVal.int 0⟩
        (PyVal.int 1) (PyVal.int 5)
      = ⟨[(PyVal.int 1, PyVal.int 5)], PyVal.int 0⟩) ∧
    (SimpleIdentifierCollection.primary_identifier
        ⟨[(PyVal.int 1, PyVal.int 5)], PyVal.int 0⟩
      = Except.ok (PyVal.int 5, ⟨[(PyVal.int 1, PyVal.int 5)], PyVal.int 5⟩)) ∧
    PyVal.int 5 ≠ PyVal.int 0 :=
  ⟨rfl, rfl, rfl, rfl, by decide⟩

/-- C2 (amended): on a non-empty collection whose primary identifier was never
resolved, reading `primary_identifier` returns the identifier of the first
inserted source and caches it; provided that identifier is truthy, every
subsequent read returns the same identifier even after any further sequence of
`add` / `add_collection` calls. -/
theorem C2_amended_primary_identifier_stable (c : SimpleIdentifierCollection)
    (k v : PyVal) (tl : List (PyVal × PyVal))
    (h1 : c.source_identifiers = (k, v) :: tl)
    (h2 : c._primary_identifier = PyVal.none)
    (hv : v.truthy = true) (ops : List SicOp) :
    c.primary_identifier
      = Except.ok (v, { c with _primary_identifier := v }) ∧
    (applySicOps { c with _primary_identifier := v } ops).primary_identifier
      = Except.ok (v, applySicOps { c with _primary_identifier := v } ops) := by
  constructor
  · simp [SimpleIdentifierCollection.primary_identifier, h1, h2, PyVal.truthy]
  · have ht : (applySicOps { c with _primary_identifier := v } ops)._primary_identifier.truthy
        = true := by
      rw [applySicOps_cache]
      exact hv
    have hok := primary_identifier_of_truthy
      (applySicOps { c with _primary_identifier := v } ops) ht
    rw [applySicOps_cache] at hok
    exact hok

/-- C2 witness: source `1` contributes the truthy identifier `7`; after a
later `add` of source `2`, the read still returns `7`. -/
theorem C2_amended_primary_identifier_stable_witness :
    (SimpleIdentifierCollection.primary_identifier
        ⟨[(PyVal.int 1, PyVal.int 7)], PyVal.none⟩
      = Except.ok (PyVal.int 7, ⟨[(PyVal.int 1, PyVal.int 7)], PyVal.int 7⟩)) ∧
    (SimpleIdentifierCollection.primary_identifier
        (applySicOps ⟨[(PyVal.int 1, PyVal.int 7)], PyVal.int 7⟩
          [SicOp.addOne (PyVal.int 2) (PyVal.int 9)])
      = Except.ok (PyVal.int 7,
          applySicOps ⟨[(PyVal.int 1, PyVal.int 7)], PyVal.int 7⟩
            [SicOp.addOne (PyVal.int 2) (PyVal.int 9)])) :=
  C2_amended_primary_identifier_stable ⟨[(PyVal.int 1, PyVal.int 7)], PyVal.none⟩
    (PyVal.int 1) (PyVal.int 7) [] rfl rfl (by decide)
    [SicOp.addOne (PyVal.int 2) (PyVal.int 9)]

/-- C4: merging collection B into A via `add_collection` raises nothing; every
source name of B now maps to B's identifier, every source name outside B keeps
A's identifier, and the merged key set is the union. -/
theorem C4_add_collection_merge (a b : SimpleIdentifierCollection) (k : PyVal)
    (hb : DictWF b.source_identifiers) :
    (a.add_collection (.coll b)).2 = Option.none ∧
    ((a.add_collection (.coll b)).1.from_source k
      = if k ∈ b.source_names then b.from_source k else a.from_source k) ∧
    (k ∈ (a.add_collection (.coll b)).1.source_names
      ↔ k ∈ a.source_names ∨ k ∈ b.source_names) := by
  refine ⟨rfl, ?_, ?_⟩
  · by_cases hk : k ∈ b.source_names
    · rw [if_pos hk]
      show (dictGet (dictUpdate a.source_identifiers b.source_identifiers) k).getD
          PyVal.none = _
      rw [dictGet_update_mem a.source_identifiers b.source_identifiers k hb hk]
      rfl
    · rw [if_neg hk]
      show (dictGet (dictUpdate a.source_identifiers b.source_identifiers) k).getD
          PyVal.none = _
      rw [dictGet_update_not_mem a.source_identifiers b.source_identifiers k hk]
      rfl
  · exact mem_dictKeys_update a.source_identifiers b.source_identifiers k

/-- C4 witness: A maps source `1` to `10`; B maps source `1` to `99` and
source `2` to `30`; after the merge, A follows B on source `1`. -/
theorem C4_add_collection_merge_witness :
    ((SimpleIdentifierCollection.add_collection
        ⟨[(PyVal.int 1, PyVal.int 10)], PyVal.none⟩
        (SimpleIdentifierCollection.CollArg.coll
          ⟨[(PyVal.int 1, PyVal.int 99), (PyVal.int 2, PyVal.int 30)], PyVal.none⟩)).2
      = Option.none) ∧
    ((SimpleIdentifierCollection.add_collection
        ⟨[(PyVal.int 1, PyVal.int 10)], PyVal.none⟩
        (SimpleIdentifierCollection.CollArg.coll
          ⟨[(PyVal.int 1, PyVal.int 99), (PyVal.int 2, PyVal.int 30)], PyVal.none⟩)).1.from_source
        (PyVal.int 1)
      = if (PyVal.int 1) ∈ (⟨[(PyVal.int 1, PyVal.int 99), (PyVal.int 2, PyVal.int 30)],
            PyVal.none⟩ : SimpleIdentifierCollection).source_names
        then (⟨[(PyVal.int 1, PyVal.int 99), (PyVal.int 2, PyVal.int 30)],
            PyVal.none⟩ : SimpleIdentifierCollection).from_source (PyVal.int 1)
        else (⟨[(PyVal.int 1, PyVal.int 10)], PyVal.none⟩ :
            SimpleIdentifierCollection).from_source (PyVal.int 1)) ∧
    ((PyVal.int 1) ∈ (SimpleIdentifierCollection.add_collection
        ⟨[(PyVal.int 1, PyVal.int 10)], PyVal.none⟩
        (SimpleIdentifierCollection.CollArg.coll
          ⟨[(PyVal.int 1, PyVal.int 99), (PyVal.int 2, PyVal.int 30)], PyVal.none⟩)).1.source_names
      ↔ (PyVal.int 1) ∈ (⟨[(PyVal.int 1, PyVal.int 10)], PyVal.none⟩ :
            SimpleIdentifierCollection).source_names
        ∨ (PyVal.int 1) ∈ (⟨[(PyVal.int 1, PyVal.int 99), (PyVal.int 2, PyVal.int 30)],
            PyVal.none⟩ : SimpleIdentifierCollection).source_names) :=
  C4_add_collection_merge ⟨[(PyVal.int 1, PyVal.int 10)], PyVal.none⟩
    ⟨[(PyVal.int 1, PyVal.int 99), (PyVal.int 2, PyVal.int 30)], PyVal.none⟩
    (PyVal.int 1) (by decide)

/-- C5: `put_all` of carrier B into carrier A raises nothing; every key of B
now reads B's value (last write wins), keys outside B keep A's values, and the
merged key set is the union (every key of B is present afterward). -/
theorem C5_put_all_merge (a b : MapContext) (k : PyVal) (hb : DictWF b.context) :
    (a.put_all (.ctx b)).2 = Option.none ∧
    ((a.put_all (.ctx b)).1.get k
      = if k ∈ dictKeys b.context then b.get k else a.get k) ∧
    ((a.put_all (.ctx b)).1.mem k = (a.mem k || b.mem k)) := by
  refine ⟨rfl, ?_, ?_⟩
  · by_cases hk : k ∈ dictKeys b.context
    · rw [if_pos hk]
      show (dictGet (dictUpdate a.context b.context) k).getD PyVal.none = _
      rw [dictGet_update_mem a.context b.context k hb hk]
      rfl
    · rw [if_neg hk]
      show (dictGet (dictUpdate a.context b.context) k).getD PyVal.none = _
      rw [dictGet_update_not_mem a.context b.context k hk]
      rfl
  · show decide (k ∈ dictKeys (dictUpdate a.context b.context)) = _
    simp [MapContext.mem, mem_dictKeys_update]

/-- C5 witness: A holds keys `1 ↦ 10`, `2 ↦ 20`; B holds `2 ↦ 99`, `3 ↦ 30`;
after `put_all`, key `2` reads B's `99` and key `3` is present. -/
theorem C5_put_all_merge_witness :
    ((MapContext.put_all ⟨[(PyVal.int 1, PyVal.int 10), (PyVal.int 2, PyVal.int 20)]⟩
        (MapContext.CtxArg.ctx ⟨[(PyVal.int 2, PyVal.int 99), (PyVal.int 3, PyVal.int 30)]⟩)).2
      = Option.none) ∧
    ((MapContext.put_all ⟨[(PyVal.int 1, PyVal.int 10), (PyVal.int 2, PyVal.int 20)]⟩
        (MapContext.CtxArg.ctx ⟨[(PyVal.int 2, PyVal.int 99), (PyVal.int 3, PyVal.int 30)]⟩)).1.get
        (PyVal.int 2)
      = if (PyVal.int 2) ∈ dictKeys
            ((⟨[(PyVal.int 2, PyVal.int 99), (PyVal.int 3, PyVal.int 30)]⟩ : MapContext).context)
        then (⟨[(PyVal.int 2, PyVal.int 99), (PyVal.int 3, PyVal.int 30)]⟩ : MapContext).get
            (PyVal.int 2)
        else (⟨[(PyVal.int 1, PyVal.int 10), (PyVal.int 2, PyVal.int 20)]⟩ : MapContext).get
            (PyVal.int 2)) ∧
    ((MapContext.put_all ⟨[(PyVal.int 1, PyVal.int 10), (PyVal.int 2, PyVal.int 20)]⟩
        (MapContext.CtxArg.ctx ⟨[(PyVal.int 2, PyVal.int 99), (PyVal.int 3, PyVal.int 30)]⟩)).1.mem
        (PyVal.int 2)
      = ((⟨[(PyVal.int 1, PyVal.int 10), (PyVal.int 2, PyVal.int 20)]⟩ : MapContext).mem
            (PyVal.int 2)
        || (⟨[(PyVal.int 2, PyVal.int 99), (PyVal.int 3, PyVal.int 30)]⟩ : MapContext).mem
            (PyVal.int 2))) :=
  C5_put_all_merge ⟨[(PyVal.int 1, PyVal.int 10), (PyVal.int 2, PyVal.int 20)]⟩
    ⟨[(PyVal.int 2, PyVal.int 99), (PyVal.int 3, PyVal.int 30)]⟩ (PyVal.int 2) (by decide)

/-- C7 counterexample: the single-pair entry point is guarded by
`elif (source_name and identifier):` — Python truthiness of both arguments —
so constructing with a truthy source name and the falsy identifier `0` yields
an empty collection, not a collection with the single entry `1 ↦ 0` the claim
requires. -/
theorem C7_counterexample_falsy_identifier_ignored :
    SimpleIdentifierCollection.init (PyVal.int 1) (PyVal.int 0) Option.none
      = ⟨[], PyVal.none⟩ ∧
    (SimpleIdentifierCollection.init (PyVal.int 1) (PyVal.int 0) Option.none).is_empty
      = true ∧
    (SimpleIdentifierCollection.init (PyVal.int 1) (PyVal.int 0) Option.none).from_source
      (PyVal.int 1) = PyVal.none :=
  ⟨rfl, rfl, rfl⟩

/-- C7 (amended): the constructor has exactly the three entry points: no
arguments gives the empty collection; a truthy source name with a truthy
identifier gives the singleton collection; an identifier collection gives a
collection with exactly its entries.  (A falsy source name or identifier falls
through to the empty collection, as the counterexample forces.) -/
theorem C7_amended_init_entry_points (sn i : PyVal)
    (b : SimpleIdentifierCollection) (hb : DictWF b.source_identifiers)
    (hsn : sn.truthy = true) (hi : i.truthy = true) :
    SimpleIdentifierCollection.init PyVal.none PyVal.none Option.none
      = ⟨[], PyVal.none⟩ ∧
    (SimpleIdentifierCollection.init PyVal.none PyVal.none Option.none).is_empty
      = true ∧
    SimpleIdentifierCollection.init sn i Option.none = ⟨[(sn, i)], PyVal.none⟩ ∧
    SimpleIdentifierCollection.init sn i (some b)
      = ⟨b.source_identifiers, PyVal.none⟩ := by
  refine ⟨rfl, rfl, ?_, ?_⟩
  · simp [SimpleIdentifierCollection.init, hsn, hi, SimpleIdentifierCollection.add,
      dictSet]
  · have hupd : dictUpdate ([] : List (PyVal × PyVal)) b.source_identifiers
        = b.source_identifiers := by
      rw [dictUpdate_disjoint [] b.source_identifiers hb
        (fun k hk => by simp [dictKeys_nil])]
      simp
    simp [SimpleIdentifierCollection.init, SimpleIdentifierCollection.add_collection,
      hupd]

/-- C7 witness: the three entry points at concrete arguments, the collection
case copying the entries of `{3 ↦ 4}`. -/
theorem C7_amended_init_entry_points_witness :
    SimpleIdentifierCollection.init PyVal.none PyVal.none Option.none
      = ⟨[], PyVal.none⟩ ∧
    (SimpleIdentifierCollection.init PyVal.none PyVal.none Option.none).is_empty
      = true ∧
    SimpleIdentifierCollection.init (PyVal.int 1) (PyVal.int 2) Option.none
      = ⟨[(PyVal.int 1, PyVal.int 2)], PyVal.none⟩ ∧
    SimpleIdentifierCollection.init (PyVal.int 1) (PyVal.int 2)
        (some ⟨[(PyVal.int 3, PyVal.int 4)], PyVal.none⟩)
      = ⟨[(PyVal.int 3, PyVal.int 4)], PyVal.none⟩ :=
  C7_amended_init_entry_points (PyVal.int 1) (PyVal.int 2)
    ⟨[(PyVal.int 3, PyVal.int 4)], PyVal.none⟩ (by decide) (by decide) (by decide)

/-- C9 counterexample: with a cached falsy primary identifier (`0`), `clear()`
followed by a read does not return the previously resolved identifier — the
truthiness guard re-resolves against the now-empty dict and the read raises
`StopIteration` instead. -/
theorem C9_counterexample_falsy_cache_lost_after_clear :
    (SimpleIdentifierCollection.primary_identifier
        ⟨[(PyVal.int 1, PyVal.int 0)], PyVal.none⟩
      = Except.ok (PyVal.int 0, ⟨[(PyVal.int 1, PyVal.int 0)], PyVal.int 0⟩)) ∧
    (SimpleIdentifierCollection.clear ⟨[(PyVal.int 1, PyVal.int 0)], PyVal.int 0⟩
      = ⟨[], PyVal.int 0⟩) ∧
    (SimpleIdentifierCollection.primary_identifier ⟨[], PyVal.int 0⟩
      = Except.error PyErr.stopIteration) :=
  ⟨rfl, rfl, rfl⟩

/-- C9 (amended): `clear()` empties the entry mapping (`is_empty` true,
`source_names` empty) and leaves the cached primary identifier in place; when
that cached identifier is truthy, a subsequent read still returns it. -/
theorem C9_amended_clear_preserves_cache (c : SimpleIdentifierCollection)
    (h : c._primary_identifier.truthy = true) :
    c.clear.source_identifiers = [] ∧
    c.clear.source_names = [] ∧
    c.clear.is_empty = true ∧
    c.clear._primary_identifier = c._primary_identifier ∧
    c.clear.primary_identifier = Except.ok (c._primary_identifier, c.clear) := by
  refine ⟨rfl, rfl, rfl, rfl, ?_⟩
  exact primary_identifier_of_truthy c.clear h

/-- C9 witness: a collection with cached truthy primary identifier `2`. -/
theorem C9_amended_clear_preserves_cache_witness :
    (SimpleIdentifierCollection.clear
        ⟨[(PyVal.int 1, PyVal.int 2)], PyVal.int 2⟩).source_identifiers = [] ∧
    (SimpleIdentifierCollection.clear
        ⟨[(PyVal.int 1, PyVal.int 2)], PyVal.int 2⟩).source_names = [] ∧
    (SimpleIdentifierCollection.clear
        ⟨[(PyVal.int 1, PyVal.int 2)], PyVal.int 2⟩).is_empty = true ∧
    (SimpleIdentifierCollection.clear
        ⟨[(PyVal.int 1, PyVal.int 2)], PyVal.int 2⟩)._primary_identifier
      = PyVal.int 2 ∧
    (SimpleIdentifierCollection.clear
        ⟨[(PyVal.int 1, PyVal.int 2)], PyVal.int 2⟩).primary_identifier
      = Except.ok (PyVal.int 2,
          SimpleIdentifierCollection.clear ⟨[(PyVal.int 1, PyVal.int 2)], PyVal.int 2⟩) :=
  C9_amended_clear_preserves_cache ⟨[(PyVal.int 1, PyVal.int 2)], PyVal.int 2⟩
    (by decide)
